import Mathlib

/-!
Verification development for the `newsAPI` Flask service (`src/app.py`).

The service exposes a single endpoint `GET /fetch-filtered-page?url=...`
that fetches a web page, replaces anchors and images with bracketed text
annotations, extracts plain text, and returns it together with a token
estimate.

The embedding below models:
* the parts of `urllib.parse.urlsplit` / `urljoin` that the source exercises,
* HTML documents as forests of element/text nodes (the output of
  `BeautifulSoup(html, "html.parser")`; the parser itself is library code,
  so a fetched body is modeled directly as its parse tree),
* `fetch_webpage_python`, `estimateTokenCount` and the request handler
  `get_readable_page`, with the network modeled as a function from the
  requested URL to an outcome (transport error, or a response with status,
  content type and parsed body).

Python `float` arithmetic inside `estimateTokenCount` is modeled with exact
rationals: `len(text)/4` is exactly representable in binary floating point,
`words/0.75` and the final average introduce a relative error far below
`1/24`, while the exact value `(3*len + 16*words)/24` is either exactly a
half-integer (in which case the float computation is also exact, as all
intermediate values are representable) or at distance at least `1/24` from
one; hence Python's `round` (banker's rounding) on the float agrees with
round-half-even on the exact rational for all realistic input sizes.
-/

namespace NewsAPI

/-! ### URL parsing (the slice of `urllib.parse` the source uses) -/

/-- Characters allowed in a URL scheme, after `urllib.parse.scheme_chars`. -/
def schemeChar (c : Char) : Bool :=
  c.isAlphanum || c == '+' || c == '-' || c == '.'

/-- Characters that terminate the netloc in `urlsplit`. -/
def netlocDelim (c : Char) : Bool :=
  c == '/' || c == '?' || c == '#'

/-- Split a character list at the first colon, mirroring `url.find(':')`. -/
def splitAtColon : List Char → Option (List Char × List Char)
  | [] => none
  | c :: t =>
      if c = ':' then some ([], t)
      else
        match splitAtColon t with
        | some p => some (c :: p.1, p.2)
        | none => none

/-- The validity test `urlsplit` applies to the candidate scheme:
nonempty, leading ASCII letter, all characters in `scheme_chars`. -/
def validScheme (l : List Char) : Bool :=
  match l with
  | [] => false
  | c :: _ => c.isAlpha && l.all schemeChar

/-- Extract `(netloc, rest)`: a netloc is present exactly when the input
starts with `//`, and runs until the first `/`, `?` or `#`. -/
def splitNetloc (l : List Char) : List Char × List Char :=
  match l with
  | '/' :: '/' :: t =>
      (t.takeWhile (fun c => !netlocDelim c), t.dropWhile (fun c => !netlocDelim c))
  | _ => ([], l)

/-- The components of `urllib.parse.urlparse` that the source reads. -/
structure URLParts where
  scheme : String
  netloc : String
  rest : String
deriving DecidableEq

/-- Model of `urllib.parse.urlsplit`/`urlparse` restricted to the fields the
source uses (`scheme`, `netloc`).  If the prefix before the first colon is a
valid scheme it is lowercased and removed; otherwise the whole string is
scanned for a `//`-led netloc. -/
def urlsplit (url : String) : URLParts :=
  match splitAtColon url.data with
  | some p =>
      if validScheme p.1 then
        let q := splitNetloc p.2
        ⟨⟨p.1.map Char.toLower⟩, ⟨q.1⟩, ⟨q.2⟩⟩
      else
        let q := splitNetloc url.data
        ⟨"", ⟨q.1⟩, ⟨q.2⟩⟩
  | none =>
      let q := splitNetloc url.data
      ⟨"", ⟨q.1⟩, ⟨q.2⟩⟩

/-- Model of Python `str.startswith`. -/
def pyStartsWith (s pre : String) : Bool :=
  pre.data.isPrefixOf s.data

/-- Model of `urllib.parse.urljoin base ref` for the only shapes the source
feeds it (`ref` starting with `/`, base carrying a scheme): a
protocol-relative `//...` reference keeps only the base scheme, any other
rooted reference keeps scheme and netloc. -/
def urljoinSlash (base ref : String) : String :=
  let p := urlsplit base
  if pyStartsWith ref "//" then p.scheme ++ ":" ++ ref
  else p.scheme ++ "://" ++ p.netloc ++ ref

/-- The relative-reference policy of `fetch_webpage_python`: references
starting with `/` are joined with the base URL, everything else is passed
through unchanged (lines 50-52, 63-65, 85-87, 95-97 of `src/app.py`). -/
def resolveRef (base ref : String) : String :=
  if pyStartsWith ref "/" then urljoinSlash base ref else ref

/-- An absolute URL in the sense of the specification glossary: parsing it
yields a nonempty scheme and a nonempty netloc (host). -/
def isAbsoluteURL (s : String) : Bool :=
  ((urlsplit s).scheme != "") && ((urlsplit s).netloc != "")

/-! ### Python string primitives

Core `String.toLower`, `String.trim` and `String.split` are implemented on
byte positions; the models below work on the character list instead
(ASCII-faithful, which covers every string the source manipulates). -/

/-- Model of Python `str.lower` (ASCII range). -/
def pyLower (s : String) : String :=
  ⟨s.data.map Char.toLower⟩

/-- ASCII whitespace as Python `str.split`/`str.strip` see it. -/
def pyWhitespace (c : Char) : Bool :=
  c == ' ' || c == '\t' || c == '\n' || c == '\r' || c == '\x0b' || c == '\x0c'

/-- Model of Python `str.strip()` (ASCII whitespace). -/
def pyStrip (s : String) : String :=
  ⟨((s.data.dropWhile pyWhitespace).reverse.dropWhile pyWhitespace).reverse⟩

/-- Maximal non-whitespace runs, counted left to right. -/
def countWordsAux (inWord : Bool) : List Char → Nat
  | [] => 0
  | c :: t =>
      if pyWhitespace c then countWordsAux false t
      else (if inWord then 0 else 1) + countWordsAux true t

/-! ### HTML documents

A fetched body is modeled as the forest of nodes produced by
`BeautifulSoup(html, "html.parser")`: elements carry a tag, an attribute
list (first occurrence wins on lookup, as in the parser) and children;
`NavigableString`s are text nodes. -/

/-- A parsed HTML node. -/
inductive Node where
  | elem (tag : String) (attrs : List (String × String)) (children : List Node)
  | text (s : String)

mutual

/-- All descendant strings of a node, in document order
(`soup.strings` / the raw material of `get_text`). -/
def fragments : Node → List String
  | .text s => [s]
  | .elem _ _ cs => fragmentsL cs

/-- `fragments` over a forest. -/
def fragmentsL : List Node → List String
  | [] => []
  | n :: ns => fragments n ++ fragmentsL ns

end

/-- Model of `get_text(separator=sep, strip=True)`: every descendant string
is stripped, empty results are dropped, and the rest are joined with the
separator. -/
def getText (sep : String) (ns : List Node) : String :=
  String.intercalate sep (((fragmentsL ns).map pyStrip).filter (fun s => s ≠ ""))

/-- The replacement string for an anchor (`src/app.py` lines 53-58):
`link.get_text(strip=True)` followed by the resolved href in brackets, or
just the bracketed href when the text is empty. -/
def anchorReplacement (base href : String) (children : List Node) : String :=
  let link_text := getText "" children
  let href' := resolveRef base href
  if link_text ≠ "" then link_text ++ " [" ++ href' ++ "]"
  else "[" ++ href' ++ "]"

/-- The replacement string for an image (`src/app.py` lines 66-71):
bracketed alt text (default empty, stripped) and the resolved src. -/
def imgReplacement (base src : String) (attrs : List (String × String)) : String :=
  let src' := resolveRef base src
  let alt_text := pyStrip ((List.lookup "alt" attrs).getD "")
  if alt_text ≠ "" then "[Image: " ++ alt_text ++ "] [" ++ src' ++ "]"
  else "[Image] [" ++ src' ++ "]"

mutual

/-- First annotation pass (`soup.find_all('a', href=True)` + `replace_with`):
every anchor carrying an `href` attribute becomes a text node.  Replacing a
node removes its subtree, so nothing below a replaced anchor is processed
(`html.parser` never nests anchors, so the passes agree on parsed HTML). -/
def annotateA (base : String) : Node → Node
  | .text s => .text s
  | .elem tag attrs cs =>
      if tag = "a" then
        match List.lookup "href" attrs with
        | some href => .text (anchorReplacement base href cs)
        | none => .elem tag attrs (annotateAL base cs)
      else .elem tag attrs (annotateAL base cs)

/-- `annotateA` over a forest. -/
def annotateAL (base : String) : List Node → List Node
  | [] => []
  | n :: ns => annotateA base n :: annotateAL base ns

end

mutual

/-- Second annotation pass (`soup.find_all('img', src=True)` on the already
anchor-annotated tree): every image carrying a `src` becomes a text node. -/
def annotateI (base : String) : Node → Node
  | .text s => .text s
  | .elem tag attrs cs =>
      if tag = "img" then
        match List.lookup "src" attrs with
        | some src => .text (imgReplacement base src attrs)
        | none => .elem tag attrs (annotateIL base cs)
      else .elem tag attrs (annotateIL base cs)

/-- `annotateI` over a forest. -/
def annotateIL (base : String) : List Node → List Node
  | [] => []
  | n :: ns => annotateI base n :: annotateIL base ns

end

mutual

/-- Raw `href` attributes of all anchors, in document order
(the collector re-parses the original HTML, `src/app.py` lines 81-88). -/
def rawHrefs : Node → List String
  | .text _ => []
  | .elem tag attrs cs =>
      (if tag = "a" then
        match List.lookup "href" attrs with
        | some href => [href]
        | none => []
      else []) ++ rawHrefsL cs

/-- `rawHrefs` over a forest. -/
def rawHrefsL : List Node → List String
  | [] => []
  | n :: ns => rawHrefs n ++ rawHrefsL ns

end

mutual

/-- Raw `src` attributes of all images, in document order
(`src/app.py` lines 90-98). -/
def rawSrcs : Node → List String
  | .text _ => []
  | .elem tag attrs cs =>
      (if tag = "img" then
        match List.lookup "src" attrs with
        | some src => [src]
        | none => []
      else []) ++ rawSrcsL cs

/-- `rawSrcs` over a forest. -/
def rawSrcsL : List Node → List String
  | [] => []
  | n :: ns => rawSrcs n ++ rawSrcsL ns

end

/-! ### Substring test (Python `in` on strings) -/

/-- `needle` occurs as a contiguous sublist of the argument. -/
def isSubstrOf (needle : List Char) : List Char → Bool
  | [] => needle.isEmpty
  | c :: t => needle.isPrefixOf (c :: t) || isSubstrOf needle t

/-- Model of Python `needle in hay` for strings. -/
def pyContains (hay needle : String) : Bool :=
  isSubstrOf needle.data hay.data

/-! ### `fetch_webpage_python` -/

/-- What `requests.get` does for a given URL: either some
`requests.exceptions.RequestException` is raised at the transport level, or
a response arrives with a status code, a `Content-Type` header value and a
body (modeled as its parse). -/
inductive FetchOutcome where
  | transportError
  | response (status : Nat) (contentType : String) (body : List Node)

/-- A Python call result: a returned value, or an uncaught exception
propagating to the caller with its message. -/
inductive PyResult (α : Type) where
  | ret (a : α)
  | raised (msg : String)
deriving DecidableEq

/-- Model of `fetch_webpage_python` (`src/app.py` lines 12-112).

* A `RequestException` during the GET, or one raised by
  `raise_for_status()` (status 4xx/5xx), is caught and the function returns
  `("Can't fetch page", [], [])`.
* A `Content-Type` without the substring `text/html` (case-insensitive)
  raises `ValueError`, which the `except ValueError` arm re-raises.
* Otherwise the body is annotated (anchors first, then images), the text is
  extracted with `get_text(separator=' ', strip=True)`; if it strips to
  empty the function returns `(None, [], [])`.  The empty-`html`-string
  early return at line 39 is subsumed: an empty document has no strings, so
  the extracted text is empty.  The `Document` constructed at line 32 is
  never used (line 38 assigns the raw `html` to `article_html_summary`).
* Links and images are collected from a fresh parse of the same HTML, with
  the same `/`-prefix resolution rule. -/
def fetch_webpage_python (url : String) (out : FetchOutcome) :
    PyResult (Option String × List String × List String) :=
  match out with
  | .transportError => .ret (some "Can't fetch page", [], [])
  | .response status contentType body =>
      if 400 ≤ status ∧ status < 600 then .ret (some "Can't fetch page", [], [])
      else if !pyContains (pyLower contentType) "text/html" then
        .raised ("Expected HTML content but received " ++ contentType ++ " from " ++ url)
      else
        let article_text_content := getText " " (annotateIL url (annotateAL url body))
        if pyStrip article_text_content = "" then .ret (none, [], [])
        else
          let links := (rawHrefsL body).map (resolveRef url)
          let images := (rawSrcsL body).map (resolveRef url)
          .ret (some article_text_content, links, images)

/-! ### `estimateTokenCount` -/

/-- Model of Python `text.split()`: maximal runs of non-whitespace. -/
def pyWordCount (text : String) : Nat :=
  countWordsAux false text.data

/-- Round-half-even (Python 3 `round`) on an exact rational. -/
def roundHalfEven (q : ℚ) : ℤ :=
  if q - q.floor < 1/2 then q.floor
  else if 1/2 < q - q.floor then q.floor + 1
  else if q.floor % 2 = 0 then q.floor else q.floor + 1

/-- Model of `estimateTokenCount` (`src/app.py` lines 114-123), with the
float arithmetic replaced by exact rationals (see the header comment for
why the two agree). -/
def estimateTokenCount (text : String) : ℤ :=
  let charBasedEstimate : ℚ := (text.length : ℚ) / 4
  let wordCount : ℕ := pyWordCount text
  let wordBasedEstimate : ℚ := (wordCount : ℚ) / (0.75 : ℚ)
  roundHalfEven ((charBasedEstimate + wordBasedEstimate) / 2)

/-- Modelled from the spec: the token-estimate formula as claim C7 states
it, `(length(text)/4 + wordCount(text)/0.75) / 2`, to be compared with the
source-derived `estimateTokenCount`. -/
def tokenEstimateSpec (text : String) : ℚ :=
  ((text.length : ℚ) / 4 + (pyWordCount text : ℚ) / (0.75 : ℚ)) / 2

/-! ### The request handler -/

/-- An HTTP response of the endpoint as the client observes it:
an error JSON body with a status code, the 200 success JSON body, or an
exception that escaped the view function (which Flask turns into a generic
500 error page that is not the handler's JSON). -/
inductive Resp where
  | errorJson (status : Nat) (error : String)
  | okJson (url_requested content_html : String) (length : ℤ)
  | unhandled (msg : String)
deriving DecidableEq

/-- The 400 message for a missing `url` parameter. -/
def requiredMsg : String := "URL parameter is required"

/-- The 400 message for a malformed URL. -/
def invalidMsg : String := "Invalid URL format. Please provide a full URL (e.g., http://example.com)"

/-- The generic 500 message. -/
def fetchFailMsg : String := "Could not fetch or parse content from the URL"

/-- URL repair in `get_readable_page` (`src/app.py` lines 133-138):
accept as-is when scheme and netloc are both present, prepend `http://`
when the scheme is empty but a netloc parsed, reject otherwise. -/
def normalizeURL (url : String) : Option String :=
  let parsed_url := urlsplit url
  if parsed_url.scheme = "" ∨ parsed_url.netloc = "" then
    if parsed_url.scheme = "" ∧ parsed_url.netloc ≠ "" then some ("http://" ++ url)
    else none
  else some url

/-- The tail of the handler after URL validation (`src/app.py` lines
140-150): call the fetcher and map its result to a response.  Python's
`if not content_html` is true for both `None` and the empty string. -/
def handleFetch (net : String → FetchOutcome) (url : String) : Resp :=
  match fetch_webpage_python url (net url) with
  | .raised msg => .unhandled msg
  | .ret (content_html, _, _) =>
      match content_html with
      | none => .errorJson 500 fetchFailMsg
      | some text =>
          if text = "" then .errorJson 500 fetchFailMsg
          else .okJson url text (estimateTokenCount text)

/-- Model of the `get_readable_page` view (`src/app.py` lines 126-150).
`param` is `request.args.get('url')` (`none` when absent); `net` is the
network.  Python's `if not url` is true for `None` and for `""`. -/
def get_readable_page (net : String → FetchOutcome) (param : Option String) : Resp :=
  match param with
  | none => .errorJson 400 requiredMsg
  | some url =>
      if url = "" then .errorJson 400 requiredMsg
      else
        match normalizeURL url with
        | some u => handleFetch net u
        | none => .errorJson 400 invalidMsg

/-- A network where every GET fails at the transport level. -/
def netDown : String → FetchOutcome := fun _ => .transportError

/-- A network that always answers 200 with a JSON content type. -/
def netJson : String → FetchOutcome := fun _ => .response 200 "application/json" []

/-- A network that always answers 200 `text/html` with the empty document
`<html></html>`. -/
def netEmptyHtml : String → FetchOutcome :=
  fun _ => .response 200 "text/html" [.elem "html" [] []]

/-! ### Helper lemmas -/

/-- `Rat.floor` agrees with the `Int.floor` of the `FloorRing ℚ` instance. -/
lemma rat_floor_eq_intFloor (q : ℚ) : q.floor = ⌊q⌋ := by
  rw [Rat.floor_def', Rat.floor_def]

/-- `roundHalfEven` lands on a nearest integer. -/
lemma roundHalfEven_nearest (q : ℚ) : |(roundHalfEven q : ℚ) - q| ≤ 1/2 := by
  unfold roundHalfEven
  rw [rat_floor_eq_intFloor]
  have h0 : (⌊q⌋ : ℚ) ≤ q := Int.floor_le q
  have h1 : q < ⌊q⌋ + 1 := Int.lt_floor_add_one q
  split_ifs with ha hb hc <;> rw [abs_le] <;> constructor <;> push_cast <;> linarith

/-- Parsing the empty string yields empty components. -/
lemma urlsplit_empty : urlsplit "" = ⟨"", "", ""⟩ := rfl

/-- A URL that parses with a netloc is not the empty string. -/
lemma ne_empty_of_netloc {url : String} (hn : (urlsplit url).netloc ≠ "") :
    url ≠ "" := by
  intro h
  rw [h, urlsplit_empty] at hn
  exact hn rfl

/-- A URL that parses with a scheme is not the empty string. -/
lemma ne_empty_of_scheme {url : String} (hs : (urlsplit url).scheme ≠ "") :
    url ≠ "" := by
  intro h
  rw [h, urlsplit_empty] at hs
  exact hs rfl

/-- A URL carrying both scheme and netloc passes validation unchanged. -/
lemma normalizeURL_valid {url : String}
    (hs : (urlsplit url).scheme ≠ "") (hn : (urlsplit url).netloc ≠ "") :
    normalizeURL url = some url := by
  unfold normalizeURL
  rw [if_neg]
  intro h
  rcases h with h | h
  · exact hs h
  · exact hn h

/-- On a URL with scheme and netloc the handler reaches the fetch stage. -/
lemma get_readable_page_valid (net : String → FetchOutcome) {url : String}
    (hs : (urlsplit url).scheme ≠ "") (hn : (urlsplit url).netloc ≠ "") :
    get_readable_page net (some url) = handleFetch net url := by
  simp only [get_readable_page]
  rw [if_neg (ne_empty_of_scheme hs), normalizeURL_valid hs hn]

/-- Appending strings concatenates their character lists. -/
lemma str_data_append (a b : String) : (a ++ b).data = a.data ++ b.data := by
  cases a
  cases b
  rfl

/-- `splitAtColon` finds the explicitly placed colon when none precedes it. -/
lemma splitAtColon_append {pre : List Char} (post : List Char) (h : ':' ∉ pre) :
    splitAtColon (pre ++ ':' :: post) = some (pre, post) := by
  induction pre with
  | nil => simp [splitAtColon]
  | cons c tl ih =>
      have hc : ¬(c = ':') := by
        intro hc
        exact h (by rw [hc]; exact List.mem_cons_self _ _)
      rw [List.cons_append]
      simp only [splitAtColon]
      rw [if_neg hc, ih (fun hm => h (List.mem_cons_of_mem c hm))]

/-- `takeWhile`/`dropWhile` stop exactly at the first failing element. -/
lemma takeWhile_append_stop {p : Char → Bool} {xs : List Char} (y : Char)
    (ys : List Char) (hx : xs.all p = true) (hy : p y = false) :
    (xs ++ y :: ys).takeWhile p = xs ∧ (xs ++ y :: ys).dropWhile p = y :: ys := by
  induction xs with
  | nil =>
      refine ⟨?_, ?_⟩
      · simp [List.takeWhile_cons, hy]
      · simp [List.dropWhile_cons, hy]
  | cons a tl ih =>
      rw [List.all_cons, Bool.and_eq_true] at hx
      obtain ⟨hih1, hih2⟩ := ih hx.2
      refine ⟨?_, ?_⟩
      · rw [List.cons_append, List.takeWhile_cons_of_pos hx.1, hih1]
      · rw [List.cons_append, List.dropWhile_cons_of_pos hx.1, hih2]

/-- A valid scheme is nonempty. -/
lemma validScheme_ne_nil {l : List Char} (h : validScheme l = true) : l ≠ [] := by
  intro he
  rw [he] at h
  exact absurd h (by decide)

/-- A valid scheme contains no colon. -/
lemma colon_not_mem_of_validScheme {l : List Char} (h : validScheme l = true) :
    ':' ∉ l := by
  intro hm
  cases l with
  | nil => simp at hm
  | cons c tl =>
      simp only [validScheme, Bool.and_eq_true] at h
      have hall := List.all_eq_true.mp h.2 ':' hm
      exact absurd hall (by decide)

/-- Parsing `scheme://netloc` followed by a `/`-led rest recovers the
components (the scheme comes back lowercased). -/
lemma urlsplit_recompose (sch nl ref : String) (t : List Char)
    (hv : validScheme sch.data = true)
    (hnld : nl.data.all (fun c => !netlocDelim c) = true)
    (hr : ref.data = '/' :: t) :
    urlsplit (sch ++ "://" ++ nl ++ ref) =
      ⟨⟨sch.data.map Char.toLower⟩, nl, ref⟩ := by
  have hdata : (sch ++ "://" ++ nl ++ ref).data
      = sch.data ++ ':' :: '/' :: '/' :: (nl.data ++ ref.data) := by
    rw [str_data_append, str_data_append, str_data_append]
    have h3 : "://".data = [':', '/', '/'] := rfl
    rw [h3]
    simp
  have hstop := takeWhile_append_stop (p := fun c => !netlocDelim c) '/' t hnld
    (by decide)
  have hstop1 : List.takeWhile (fun c => !netlocDelim c) (nl.data ++ ref.data)
      = nl.data := by
    rw [hr]
    exact hstop.1
  have hstop2 : List.dropWhile (fun c => !netlocDelim c) (nl.data ++ ref.data)
      = ref.data := by
    rw [hr]
    exact hstop.2
  unfold urlsplit
  rw [hdata, splitAtColon_append _ (colon_not_mem_of_validScheme hv)]
  simp only [if_pos hv, splitNetloc]
  rw [hstop1, hstop2]

/-- Joining a `/`-led (but not `//`-led) reference onto a base URL with a
well-formed scheme and a nonempty delimiter-free netloc yields an absolute
URL. -/
lemma urljoinSlash_absolute {base ref sch nl r : String} (t : List Char)
    (hb : urlsplit base = ⟨sch, nl, r⟩)
    (hv : validScheme sch.data = true)
    (hnl : nl ≠ "")
    (hnld : nl.data.all (fun c => !netlocDelim c) = true)
    (h1 : ref.data = '/' :: t)
    (h2 : pyStartsWith ref "//" = false) :
    isAbsoluteURL (urljoinSlash base ref) = true := by
  have hj : urljoinSlash base ref = sch ++ "://" ++ nl ++ ref := by
    unfold urljoinSlash
    rw [hb, if_neg (by rw [h2]; exact Bool.false_ne_true)]
  rw [hj]
  unfold isAbsoluteURL
  rw [urlsplit_recompose sch nl ref t hv hnld h1]
  rw [Bool.and_eq_true]
  refine ⟨?_, bne_iff_ne.mpr hnl⟩
  apply bne_iff_ne.mpr
  intro he
  have hd := congrArg String.data he
  simp only [List.map_eq_nil_iff] at hd
  exact validScheme_ne_nil hv hd

/-- Starting with `/` means the character list starts with `/`. -/
lemma pyStartsWith_slash (s : String) :
    pyStartsWith s "/" = true ↔ ∃ t, s.data = '/' :: t := by
  constructor
  · intro h
    cases s with
    | mk d =>
        cases d with
        | nil => exact absurd h (by decide)
        | cons c tl =>
            have h1 : "/".data = ['/'] := rfl
            simp only [pyStartsWith, h1, List.isPrefixOf, Bool.and_eq_true,
              beq_iff_eq] at h
            exact ⟨tl, by rw [← h.1]⟩
  · rintro ⟨t2, ht⟩
    have h1 : "/".data = ['/'] := rfl
    simp only [pyStartsWith, h1, ht, List.isPrefixOf]
    simp

/-! ### Claims -/

/-- C9: when the `url` query parameter is present but empty, the endpoint
answers 400 with the body carrying `URL parameter is required` — the same
response as when the parameter is absent, and not the invalid-URL-format
message. -/
theorem C9_empty_url_param (net : String → FetchOutcome) :
    get_readable_page net (some "") = .errorJson 400 requiredMsg ∧
    get_readable_page net none = .errorJson 400 requiredMsg ∧
    requiredMsg ≠ invalidMsg :=
  ⟨rfl, rfl, by decide⟩

/-- C10: a URL parameter that parses with an empty scheme but a nonempty
netloc (the protocol-relative `//host/path` form) has `http://` prepended
verbatim, and the handler proceeds to the fetch stage with the resulting
string instead of rejecting the request as an invalid URL. -/
theorem C10_protocol_relative (net : String → FetchOutcome) (url : String)
    (hs : (urlsplit url).scheme = "") (hn : (urlsplit url).netloc ≠ "") :
    normalizeURL url = some ("http://" ++ url) ∧
    get_readable_page net (some url) = handleFetch net ("http://" ++ url) := by
  have hnorm : normalizeURL url = some ("http://" ++ url) := by
    unfold normalizeURL
    rw [if_pos (Or.inl hs), if_pos ⟨hs, hn⟩]
  refine ⟨hnorm, ?_⟩
  simp only [get_readable_page]
  rw [if_neg (ne_empty_of_netloc hn), hnorm]

/-- C10 witness: for the parameter `//host/path` the string handed to the
fetcher is literally `http:////host/path`. -/
theorem C10_witness :
    normalizeURL "//host/path" = some "http:////host/path" ∧
    get_readable_page netDown (some "//host/path") =
      handleFetch netDown "http:////host/path" := by
  have hs : ("http://" ++ "//host/path" : String) = "http:////host/path" := by decide
  have h := C10_protocol_relative netDown "//host/path" (by decide) (by decide)
  rw [hs] at h
  exact h

/-- C2 counterexample: the claim says a host-only parameter such as
`example.com` gets `http://` prepended and is accepted; in fact `urlparse`
leaves its netloc empty, no repair fires, and the handler returns the 400
invalid-URL response. -/
theorem C2_counterexample :
    normalizeURL "example.com" = none ∧
    get_readable_page netDown (some "example.com") = .errorJson 400 invalidMsg := by
  constructor
  · rfl
  · rfl

/-- C2 amended: a nonempty parameter whose parse has neither scheme nor
netloc — which is what every host-only string like `example.com` parses to,
the host landing in the path — is rejected with the 400 invalid-URL
response; `http://` is prepended only when a netloc is present without a
scheme, i.e. for `//`-prefixed input. -/
theorem C2_hostonly_rejected (net : String → FetchOutcome) (url : String)
    (h0 : url ≠ "")
    (hs : (urlsplit url).scheme = "") (hn : (urlsplit url).netloc = "") :
    get_readable_page net (some url) = .errorJson 400 invalidMsg := by
  simp only [get_readable_page]
  rw [if_neg h0]
  unfold normalizeURL
  rw [if_pos (Or.inl hs), if_neg]
  intro h
  exact h.2 hn

/-- C2 witness: `example.com` is rejected with the 400 invalid-URL
response. -/
theorem C2_witness :
    get_readable_page netDown (some "example.com") = .errorJson 400 invalidMsg :=
  C2_hostonly_rejected netDown "example.com" (by decide) (by decide) (by decide)

/-- C1 counterexample: with the network down, the claim predicts a 500
response with the generic JSON error body; the endpoint does not produce
it (it answers 200 with `Can't fetch page` as the content). -/
theorem C1_counterexample :
    get_readable_page netDown (some "http://example.com") ≠
      .errorJson 500 fetchFailMsg := by
  intro h
  exact absurd h (by decide)

/-- C1 amended: when the GET fails at the transport level or returns a
4xx/5xx status, `fetch_webpage_python` swallows the `RequestException` and
returns `("Can't fetch page", [], [])`; since that string is truthy, the
endpoint answers 200 with `Can't fetch page` as `content_html` (and its
token estimate), not a 500 error. -/
theorem C1_fetch_failure_returns_ok (net : String → FetchOutcome) (url : String)
    (hs : (urlsplit url).scheme ≠ "") (hn : (urlsplit url).netloc ≠ "")
    (hfail : net url = .transportError ∨
      ∃ status ct body, net url = .response status ct body ∧
        400 ≤ status ∧ status < 600) :
    get_readable_page net (some url) =
      .okJson url "Can't fetch page" (estimateTokenCount "Can't fetch page") := by
  rw [get_readable_page_valid net hs hn]
  unfold handleFetch
  rcases hfail with h | ⟨status, ct, body, h, h4, h6⟩
  · rw [h]
    simp [fetch_webpage_python]
  · rw [h]
    simp only [fetch_webpage_python]
    rw [if_pos ⟨h4, h6⟩]
    simp

/-- C1 witness: transport failure on `http://example.com` yields the 200
response with `Can't fetch page`. -/
theorem C1_witness :
    get_readable_page netDown (some "http://example.com") =
      .okJson "http://example.com" "Can't fetch page"
        (estimateTokenCount "Can't fetch page") :=
  C1_fetch_failure_returns_ok netDown "http://example.com"
    (by decide) (by decide) (Or.inl rfl)

/-- C3 counterexample: on a 200 response with `Content-Type:
application/json` the claim predicts the 500 JSON error body; the endpoint
does not produce it — the `ValueError` escapes the view function instead. -/
theorem C3_counterexample :
    get_readable_page netJson (some "http://example.com") ≠
      .errorJson 500 fetchFailMsg ∧
    get_readable_page netJson (some "http://example.com") =
      .unhandled "Expected HTML content but received application/json from http://example.com" := by
  constructor
  · intro h
    exact absurd h (by decide)
  · rfl

/-- C3 amended: on a non-error status whose `Content-Type` lacks the
case-insensitive substring `text/html`, `fetch_webpage_python` raises
`ValueError` and the view re-raises it, so the exception escapes the
handler; Flask then produces its generic 500 error page, not the JSON body
with the `Could not fetch or parse content from the URL` message. -/
theorem C3_bad_content_type_unhandled (net : String → FetchOutcome) (url : String)
    (status : Nat) (ct : String) (body : List Node)
    (hs : (urlsplit url).scheme ≠ "") (hn : (urlsplit url).netloc ≠ "")
    (hr : net url = .response status ct body)
    (hst : status < 400)
    (hct : pyContains (pyLower ct) "text/html" = false) :
    get_readable_page net (some url) =
      .unhandled ("Expected HTML content but received " ++ ct ++ " from " ++ url) := by
  rw [get_readable_page_valid net hs hn]
  unfold handleFetch
  rw [hr]
  simp only [fetch_webpage_python]
  rw [if_neg (by omega : ¬(400 ≤ status ∧ status < 600)),
    if_pos (show (!pyContains (pyLower ct) "text/html") = true by rw [hct]; rfl)]

/-- C3 witness: the concrete `application/json` response propagates the
`ValueError` out of the view. -/
theorem C3_witness :
    get_readable_page netJson (some "http://example.com") =
      .unhandled ("Expected HTML content but received " ++ "application/json" ++
        " from " ++ "http://example.com") :=
  C3_bad_content_type_unhandled netJson "http://example.com" 200 "application/json" []
    (by decide) (by decide) rfl (by decide) (by decide)

/-- C8: when the response is HTML with a non-error status but the annotated
document extracts to empty or whitespace-only text, `fetch_webpage_python`
returns `None` and the endpoint answers 500 with the generic JSON error
message. -/
theorem C8_empty_content_500 (net : String → FetchOutcome) (url : String)
    (status : Nat) (ct : String) (body : List Node)
    (hs : (urlsplit url).scheme ≠ "") (hn : (urlsplit url).netloc ≠ "")
    (hr : net url = .response status ct body)
    (hst : ¬(400 ≤ status ∧ status < 600))
    (hct : pyContains (pyLower ct) "text/html" = true)
    (hempty : pyStrip (getText " " (annotateIL url (annotateAL url body))) = "") :
    get_readable_page net (some url) = .errorJson 500 fetchFailMsg := by
  rw [get_readable_page_valid net hs hn]
  unfold handleFetch
  rw [hr]
  simp only [fetch_webpage_python]
  rw [if_neg hst]
  simp [hct, hempty]

/-- C8 witness: fetching `<html></html>` as `text/html` yields the 500
generic error. -/
theorem C8_witness :
    get_readable_page netEmptyHtml (some "http://ex.com") =
      .errorJson 500 fetchFailMsg :=
  C8_empty_content_500 netEmptyHtml "http://ex.com" 200 "text/html"
    [.elem "html" [] []] (by decide) (by decide) rfl (by decide) (by decide) (by decide)

/-- C5: an anchor with an `href` attribute is replaced by the text node
`{inner text} [{resolved href}]` when its stripped inner text (the
concatenation of its stripped descendant strings, `get_text(strip=True)`)
is nonempty, and by `[{resolved href}]` otherwise; an href starting with
`/` is resolved against the base URL and any other href passes through
unchanged. -/
theorem C5_anchor_replacement (base href : String)
    (attrs : List (String × String)) (cs : List Node)
    (h : List.lookup "href" attrs = some href) :
    annotateA base (.elem "a" attrs cs) =
      .text (if getText "" cs ≠ ""
             then getText "" cs ++ " [" ++ resolveRef base href ++ "]"
             else "[" ++ resolveRef base href ++ "]") ∧
    (pyStartsWith href "/" = true → resolveRef base href = urljoinSlash base href) ∧
    (pyStartsWith href "/" = false → resolveRef base href = href) := by
  refine ⟨?_, fun hp => ?_, fun hp => ?_⟩
  · simp [annotateA, h, anchorReplacement]
  · simp [resolveRef, hp]
  · simp [resolveRef, hp]

/-- C5 witness: `<a href="/x">link text</a>` under base `http://ex.com`. -/
theorem C5_witness :
    annotateA "http://ex.com" (.elem "a" [("href", "/x")] [.text "link text"]) =
      .text (if getText "" [Node.text "link text"] ≠ ""
             then getText "" [Node.text "link text"] ++ " [" ++
               resolveRef "http://ex.com" "/x" ++ "]"
             else "[" ++ resolveRef "http://ex.com" "/x" ++ "]") ∧
    (pyStartsWith "/x" "/" = true →
      resolveRef "http://ex.com" "/x" = urljoinSlash "http://ex.com" "/x") ∧
    (pyStartsWith "/x" "/" = false → resolveRef "http://ex.com" "/x" = "/x") :=
  C5_anchor_replacement "http://ex.com" "/x" [("href", "/x")]
    [.text "link text"] (by decide)

/-- C6: an image with a `src` attribute is replaced by the text node
`[Image: {alt}] [{resolved src}]` when the stripped `alt` attribute
(defaulting to empty when absent) is nonempty, and by
`[Image] [{resolved src}]` otherwise; a src starting with `/` is resolved
against the base URL and any other src passes through unchanged. -/
theorem C6_image_replacement (base src : String)
    (attrs : List (String × String)) (cs : List Node)
    (h : List.lookup "src" attrs = some src) :
    annotateI base (.elem "img" attrs cs) =
      .text (if pyStrip ((List.lookup "alt" attrs).getD "") ≠ ""
             then "[Image: " ++ pyStrip ((List.lookup "alt" attrs).getD "") ++
               "] [" ++ resolveRef base src ++ "]"
             else "[Image] [" ++ resolveRef base src ++ "]") ∧
    (pyStartsWith src "/" = true → resolveRef base src = urljoinSlash base src) ∧
    (pyStartsWith src "/" = false → resolveRef base src = src) := by
  refine ⟨?_, fun hp => ?_, fun hp => ?_⟩
  · simp [annotateI, h, imgReplacement]
  · simp [resolveRef, hp]
  · simp [resolveRef, hp]

/-- C6 witness: `<img src="/y.png">` with no `alt` under base
`http://ex.com`. -/
theorem C6_witness :
    annotateI "http://ex.com" (.elem "img" [("src", "/y.png")] []) =
      .text (if pyStrip ((List.lookup "alt" [("src", "/y.png")]).getD "") ≠ ""
             then "[Image: " ++ pyStrip ((List.lookup "alt" [("src", "/y.png")]).getD "") ++
               "] [" ++ resolveRef "http://ex.com" "/y.png" ++ "]"
             else "[Image] [" ++ resolveRef "http://ex.com" "/y.png" ++ "]") ∧
    (pyStartsWith "/y.png" "/" = true →
      resolveRef "http://ex.com" "/y.png" = urljoinSlash "http://ex.com" "/y.png") ∧
    (pyStartsWith "/y.png" "/" = false →
      resolveRef "http://ex.com" "/y.png" = "/y.png") :=
  C6_image_replacement "http://ex.com" "/y.png" [("src", "/y.png")] [] (by decide)

/-- C7: `estimateTokenCount` computes exactly the round-to-nearest (ties to
even, Python 3 `round`) of `(length(text)/4 + wordCount(text)/0.75) / 2`,
and its value is within `1/2` of that formula; being a function of the text
alone, it is deterministic. -/
theorem C7_token_estimate (text : String) :
    estimateTokenCount text = roundHalfEven (tokenEstimateSpec text) ∧
    |(estimateTokenCount text : ℚ) - tokenEstimateSpec text| ≤ 1/2 := by
  have h : estimateTokenCount text = roundHalfEven (tokenEstimateSpec text) := rfl
  exact ⟨h, by rw [h]; exact roundHalfEven_nearest _⟩

/-- C4 counterexample: the claim says every entry of `links` and `images`
is an absolute URL; fetching a page with `<a href="page.html">x</a>`
returns `links = ["page.html"]`, which has neither scheme nor host. -/
theorem C4_counterexample :
    fetch_webpage_python "http://ex.com"
        (.response 200 "text/html"
          [.elem "a" [("href", "page.html")] [.text "x"]]) =
      .ret (some "x [page.html]", ["page.html"], []) ∧
    isAbsoluteURL "page.html" = false := by
  constructor
  · rfl
  · rfl

/-- The document used as the concrete C4 instance. -/
def C4body : List Node := [.elem "a" [("href", "/x")] [.text "link"]]

/-- C4 amended: every entry of the `links` and `images` lists returned by a
successful fetch is the corresponding raw attribute resolved by
`resolveRef`; consequently each entry is either (a) a source attribute not
starting with `/`, passed through verbatim (and possibly relative), or (b)
for a protocol-relative `//...` attribute, the base scheme prepended with a
colon, or (c) an absolute URL with scheme and host — absoluteness is
guaranteed only in case (c), not for every entry as claimed. -/
theorem C4_link_image_url_classification
    (url : String) (status : Nat) (ct : String) (body : List Node)
    (t : String) (L I : List String) (sch nl r : String)
    (hsplit : urlsplit url = ⟨sch, nl, r⟩)
    (hv : validScheme sch.data = true)
    (hnl : nl ≠ "")
    (hnld : nl.data.all (fun c => !netlocDelim c) = true)
    (hfetch : fetch_webpage_python url (.response status ct body) =
      .ret (some t, L, I)) :
    ∀ x ∈ L ++ I,
      (∃ ref, (ref ∈ rawHrefsL body ∨ ref ∈ rawSrcsL body) ∧
        pyStartsWith ref "/" = false ∧ x = ref) ∨
      (∃ ref, (ref ∈ rawHrefsL body ∨ ref ∈ rawSrcsL body) ∧
        pyStartsWith ref "//" = true ∧ x = sch ++ ":" ++ ref) ∨
      isAbsoluteURL x = true := by
  have classify : ∀ ref, (ref ∈ rawHrefsL body ∨ ref ∈ rawSrcsL body) →
      (∃ r2, (r2 ∈ rawHrefsL body ∨ r2 ∈ rawSrcsL body) ∧
        pyStartsWith r2 "/" = false ∧ resolveRef url ref = r2) ∨
      (∃ r2, (r2 ∈ rawHrefsL body ∨ r2 ∈ rawSrcsL body) ∧
        pyStartsWith r2 "//" = true ∧ resolveRef url ref = sch ++ ":" ++ r2) ∨
      isAbsoluteURL (resolveRef url ref) = true := by
    intro ref hmem
    by_cases hp : pyStartsWith ref "/" = true
    · by_cases hpp : pyStartsWith ref "//" = true
      · refine Or.inr (Or.inl ⟨ref, hmem, hpp, ?_⟩)
        unfold resolveRef urljoinSlash
        rw [if_pos hp, if_pos hpp, hsplit]
      · obtain ⟨t2, ht2⟩ := (pyStartsWith_slash ref).mp hp
        refine Or.inr (Or.inr ?_)
        unfold resolveRef
        rw [if_pos hp]
        exact urljoinSlash_absolute t2 hsplit hv hnl hnld ht2
          (Bool.eq_false_iff.mpr hpp)
    · refine Or.inl ⟨ref, hmem, Bool.eq_false_iff.mpr hp, ?_⟩
      unfold resolveRef
      rw [if_neg hp]
  simp only [fetch_webpage_python] at hfetch
  by_cases h1 : 400 ≤ status ∧ status < 600
  · rw [if_pos h1] at hfetch
    simp only [PyResult.ret.injEq, Prod.mk.injEq] at hfetch
    intro x hx
    rw [← hfetch.2.1, ← hfetch.2.2] at hx
    simp at hx
  · rw [if_neg h1] at hfetch
    by_cases h2 : pyContains (pyLower ct) "text/html" = true
    · rw [if_neg (by rw [h2]; decide : ¬((!pyContains (pyLower ct) "text/html") = true))]
        at hfetch
      by_cases h3 : pyStrip (getText " " (annotateIL url (annotateAL url body))) = ""
      · simp only [h3, if_pos rfl] at hfetch
        exact absurd hfetch (by simp)
      · simp only [if_neg h3, PyResult.ret.injEq, Prod.mk.injEq] at hfetch
        intro x hx
        rw [← hfetch.2.1, ← hfetch.2.2] at hx
        rcases List.mem_append.mp hx with hxm | hxm
        · obtain ⟨ref, href, hxe⟩ := List.mem_map.mp hxm
          have := classify ref (Or.inl href)
          rw [hxe] at this
          exact this
        · obtain ⟨ref, hsrc, hxe⟩ := List.mem_map.mp hxm
          have := classify ref (Or.inr hsrc)
          rw [hxe] at this
          exact this
    · have h2f : pyContains (pyLower ct) "text/html" = false :=
        Bool.eq_false_iff.mpr h2
      rw [if_pos (show (!pyContains (pyLower ct) "text/html") = true by
        rw [h2f]; rfl)] at hfetch
      exact absurd hfetch (by simp)

/-- C4 witness: for `<a href="/x">link</a>` fetched from `http://ex.com`
the single collected link `http://ex.com/x` falls in the absolute case of
the classification. -/
theorem C4_witness :
    (∃ ref, (ref ∈ rawHrefsL C4body ∨ ref ∈ rawSrcsL C4body) ∧
      pyStartsWith ref "/" = false ∧ "http://ex.com/x" = ref) ∨
    (∃ ref, (ref ∈ rawHrefsL C4body ∨ ref ∈ rawSrcsL C4body) ∧
      pyStartsWith ref "//" = true ∧ "http://ex.com/x" = "http" ++ ":" ++ ref) ∨
    isAbsoluteURL "http://ex.com/x" = true :=
  C4_link_image_url_classification "http://ex.com" 200 "text/html" C4body
    "link [http://ex.com/x]" ["http://ex.com/x"] [] "http" "ex.com" ""
    (by decide) (by decide) (by decide) (by decide) (by decide)
    "http://ex.com/x" (by decide)

end NewsAPI
